import Mathlib

/-! Trusted-flight pre-arm gate

A shallow embedding of `libraries/AP_TrustedFlight/AP_TrustedFlight.cpp` (the
orchestrator: `init`, `is_trusted`, `read_from_file`, `log_message`) and of the
token validator declared in `libraries/AP_TrustedFlight/AP_Jwt.h`.

The orchestrator is stateful C++ with side effects on collaborators (ROMFS,
filesystem, real-time clock, heap, system timer, logger).  It is embedded by
explicit state passing: every function takes the system state `Sys` and returns
the new one, and every call to one of these collaborators appends an `Event` to
`Sys.trace`, in program order.  What a collaborator answers during one call is
given by an `Env`.  The validator's body is not among the sources; its pipeline
is modelled from the specification.

Bytes are natural numbers below 256, `uint32_t` values are natural numbers
with an explicit `% 4294967296` where the C++ arithmetic can wrap, and a C
pointer is an `Option` (`none` is `nullptr`).
-/

namespace AP_TrustedFlight

/-- Modulus of `uint32_t` arithmetic. -/
def UINT32_MOD : Nat := 4294967296

/-- Modulus of `uint64_t` arithmetic. -/
def UINT64_MOD : Nat := 18446744073709551616

/-- Modelled from the spec: the handle returned by `AP::FS().load_file`, whose
struct is declared in `AP_Filesystem.h`, not among the sources (section 6:
"load_file(path) -> (bytes, length) | not-found").  `read_from_file` uses its
two fields: `length`, a `uint32_t` like the `outsize` it is stored into (a
value below `UINT32_MOD`), and `data`, a pointer (`none` when null).  A handle
is well formed when `data` holds exactly `length` bytes. -/
structure FileData where
  length : Nat
  data : Option (List Nat)
deriving DecidableEq

/-- Modelled from the spec: the enumeration `AP_Logger::LogDisarmed`, declared
in `AP_Logger.h`, not among the sources; these are the values that `init`
names. -/
inductive LogDisarmed
  | NONE
  | LOG_WHILE_DISARMED
  | LOG_WHILE_DISARMED_NOT_USB
deriving DecidableEq

/-- Constants of `AP_TrustedFlight.h` and `LogStructure.h` (not among the
sources) that the functions use, taken as parameters: the three paths and
`sizeof(pkt.msg)` of `struct log_Message`. -/
structure Config where
  public_key_path : String
  token_issuer_path : String
  token_file_path : String
  log_msg_size : Nat

/-- The answers of the collaborators during one call.
* `find_decompress path` is `AP_ROMFS::find_decompress`: the decompressed bytes,
  or `none` for a null result;
* `load_file path` is `AP::FS().load_file`;
* `get_utc_usec` is `AP::rtc().get_utc_usec`: `some t` when it returns true and
  stores `t`, `none` when it returns false;
* `malloc size` tells whether `malloc(size)` returns a non-null block. -/
structure Env where
  find_decompress : String → Option (List Nat)
  load_file : String → Option FileData
  get_utc_usec : Option Nat
  malloc : Nat → Bool

/-- One call to a collaborator, as recorded in the trace. -/
inductive Event
  | find_decompress (path : String) (found : Bool)
  | get_utc_usec (available : Bool)
  | load_file (path : String) (handle : Bool)
  | malloc (size : Nat) (ok : Bool)
  | delete_filedata
  | micros64
  | log_write (msg : String)
deriving DecidableEq

/-- The data members of `AP_TrustedFlight`. -/
structure Module where
  init_done : Bool
  public_key : Option (List Nat)
  public_key_length : Nat
  token_issuer : Option (List Nat)
  token_issuer_length : Nat
deriving DecidableEq

/-- The state the orchestrator acts on: its own members, the logger parameter
`AP::logger()._params.log_disarmed`, and the trace of collaborator calls. -/
structure Sys where
  tf : Module
  log_disarmed : LogDisarmed
  trace : List Event
deriving DecidableEq

/-- Modelled from the spec: the module right after construction.  The member
initialisers are in `AP_TrustedFlight.h`, not among the sources; section 7 has
every `is_trusted` call before a successful start-up fail as "not initialized",
and the destructor tests both pointers against null: `init_done` is false and
both pointers are null. -/
def fresh : Sys :=
  { tf := { init_done := false, public_key := none, public_key_length := 0,
            token_issuer := none, token_issuer_length := 0 },
    log_disarmed := LogDisarmed.NONE,
    trace := [] }

/-- Modelled from the spec: the C string that `hal.util->snprintf(buf, size,
text)` leaves in `buf` (the "short human-readable diagnostic" of section 7).
The function belongs to `AP_HAL`, not among the sources; it is given the
contract of C `snprintf` for a text without conversions: nothing is written
when `size` is 0 (`none`), otherwise the first `size - 1` characters followed by
the terminator. -/
def snprintf (size : Nat) (text : String) : Option String :=
  if size = 0 then none else some (String.mk (text.data.take (size - 1)))

/-- Modelled from the spec: the characters `strncpy_noterm(dst, src, n)` stores
in the log record (the "structured log entry" of section 7).  The function
belongs to `AP_Common`, not among the sources: at most `n` characters, without
a terminator. -/
def strncpy_noterm (src : String) (n : Nat) : String :=
  String.mk (src.data.take n)

/-- The function `AP_TrustedFlight::log_message`: the packet takes its time
stamp from `AP_HAL::micros64()` (the time since boot, not the real-time clock),
the message is copied by `strncpy_noterm` into `pkt.msg`, and the packet is
handed to `AP::logger().WriteBlock`.  The record in the trace keeps the message;
the header and the value of the time stamp are not recorded. -/
def log_message (cfg : Config) (message : String) (s : Sys) : Sys :=
  { s with
    trace := s.trace ++
      [Event.micros64, Event.log_write (strncpy_noterm message cfg.log_msg_size)] }

/-- The function `AP_TrustedFlight::init`.  `find_decompress` stores the size
through its reference parameter only when it finds the file. -/
def init (cfg : Config) (env : Env) (s : Sys) : Sys :=
  if s.tf.init_done then s
  else
    let s1 : Sys :=
      if s.log_disarmed = LogDisarmed.NONE then
        { s with log_disarmed := LogDisarmed.LOG_WHILE_DISARMED }
      else s
    -- read public key
    let key := env.find_decompress cfg.public_key_path
    let s2 : Sys :=
      { s1 with
        tf := { s1.tf with
                public_key := key,
                public_key_length := (key.map List.length).getD s1.tf.public_key_length },
        trace := s1.trace ++ [Event.find_decompress cfg.public_key_path key.isSome] }
    match key with
    | none => log_message cfg "Failed to read public key file system" s2
    | some _ =>
      -- read token issuer
      let issuer := env.find_decompress cfg.token_issuer_path
      let s3 : Sys :=
        { s2 with
          tf := { s2.tf with
                  token_issuer := issuer,
                  token_issuer_length :=
                    (issuer.map List.length).getD s2.tf.token_issuer_length },
          trace := s2.trace ++ [Event.find_decompress cfg.token_issuer_path issuer.isSome] }
      match issuer with
      | none => log_message cfg "Failed to read token issuer file system" s3
      | some _ => { s3 with tf := { s3.tf with init_done := true } }

/-- The block `read_from_file` hands back through `outbuf`: `capacity` is the
size passed to `malloc`, `bytes` are the bytes stored from index 0 upward by
`memcpy` and by the terminator write.  The stores stay inside the block exactly
when `bytes.length ≤ capacity`. -/
structure TokenBuffer where
  capacity : Nat
  bytes : List Nat
deriving DecidableEq

/-- The message `read_from_file` formats into `char msg[50]`. -/
def cannot_read_msg (filepath : String) : String :=
  (snprintf 50 ("Cannot read file: " ++ filepath)).getD ""

/-- The function `AP_TrustedFlight::read_from_file`.  The result is `none` when
the function returns false, and `some (outbuf, outsize)` when it returns true.
`filedata->length + 1` is `uint32_t` arithmetic; `memcpy` copies the first
`length` bytes of `data`. -/
def read_from_file (cfg : Config) (env : Env) (filepath : String) (s : Sys) :
    Option (TokenBuffer × Nat) × Sys :=
  let filedata := env.load_file filepath
  let s1 : Sys := { s with trace := s.trace ++ [Event.load_file filepath filedata.isSome] }
  match filedata with
  | none => (none, log_message cfg (cannot_read_msg filepath) s1)
  | some fd =>
    match fd.data with
    | none => (none, log_message cfg (cannot_read_msg filepath) s1)
    | some data =>
      if fd.length ≤ 0 then (none, log_message cfg (cannot_read_msg filepath) s1)
      else
        let size := (fd.length + 1) % UINT32_MOD
        let s2 : Sys := { s1 with trace := s1.trace ++ [Event.malloc size (env.malloc size)] }
        if env.malloc size = false then
          (none, log_message cfg "Cannot allocate buffer for token" s2)
        else
          let outbuf : TokenBuffer := { capacity := size, bytes := data.take fd.length ++ [0] }
          let outsize := fd.length % UINT32_MOD
          (some (outbuf, outsize), { s2 with trace := s2.trace ++ [Event.delete_filedata] })

/-- What one call of `is_trusted` yields: the returned flag, the C string left
in the caller's buffer (`none` when the buffer is not written), and the state. -/
structure Verdict where
  ret : Bool
  buffer : Option String
  sys : Sys
deriving DecidableEq

/-- The message `is_trusted` formats into `char msg[100]` when the clock is
available; `time` is a `uint64_t`. -/
def rtc_available_msg (time : Nat) : String :=
  (snprintf 100
    ("RTC is available. Current utc sec: " ++ Nat.repr ((time % UINT64_MOD) / 1000000))).getD ""

/-- The function `AP_TrustedFlight::is_trusted(buffer, buflen)`.  The token
that `read_from_file` hands back is not used. -/
def is_trusted (cfg : Config) (env : Env) (buflen : Nat) (s : Sys) : Verdict :=
  if s.tf.init_done = false then
    { ret := false,
      buffer := snprintf buflen "Initialization is not done yet",
      sys := log_message cfg "Initialization is not done yet" s }
  else
    let s1 : Sys := { s with trace := s.trace ++ [Event.get_utc_usec env.get_utc_usec.isSome] }
    match env.get_utc_usec with
    | none =>
      { ret := false,
        buffer := snprintf buflen "RTC not available",
        sys := log_message cfg "RTC not available" s1 }
    | some time =>
      let s2 := log_message cfg (rtc_available_msg time) s1
      match read_from_file cfg env cfg.token_file_path s2 with
      | (none, s3) =>
        { ret := false,
          buffer := snprintf buflen "Unable to read token",
          sys := log_message cfg "Failed to read token from file system" s3 }
      | (some _, s3) =>
        { ret := true,
          buffer := none,
          sys := log_message cfg "Token is valid." s3 }

/-- One call made on the module from outside. -/
inductive Call
  | init (env : Env)
  | is_trusted (env : Env) (buflen : Nat)

/-- The state after one call. -/
def step (cfg : Config) (s : Sys) : Call → Sys
  | Call.init env => init cfg env s
  | Call.is_trusted env buflen => (is_trusted cfg env buflen s).sys

/-- The state after a sequence of calls, made in order. -/
def run (cfg : Config) (s : Sys) (calls : List Call) : Sys :=
  calls.foldl (step cfg) s

/-! ## Concrete collaborators used to evaluate the code -/

/-- Paths and packet size of a deployment. -/
def cfg0 : Config :=
  { public_key_path := "trusted_flight/key.pub",
    token_issuer_path := "trusted_flight/token_issuer",
    token_file_path := "/APM/trusted_flight/token",
    log_msg_size := 64 }

/-- A ROMFS holding a key and an issuer. -/
def romfs_full (path : String) : Option (List Nat) :=
  if path = "trusted_flight/key.pub" then some [48, 89, 48]
  else if path = "trusted_flight/token_issuer" then some [97, 98]
  else none

/-- A ROMFS holding a key but no issuer. -/
def romfs_key_only (path : String) : Option (List Nat) :=
  if path = "trusted_flight/key.pub" then some [48, 89, 48] else none

/-- A filesystem whose token file holds exactly `bytes`. -/
def fs_with (bytes : List Nat) (path : String) : Option FileData :=
  if path = "/APM/trusted_flight/token" then some { length := bytes.length, data := some bytes }
  else none

/-- Clock available, key and issuer in ROMFS, token file holding `bytes`, heap
never exhausted. -/
def env_ok (bytes : List Nat) : Env :=
  { find_decompress := romfs_full,
    load_file := fs_with bytes,
    get_utc_usec := some 1700000000000000,
    malloc := fun _ => true }

/-- An initialised module: the state after one successful `init`. -/
def ready : Sys := init cfg0 (env_ok [120]) fresh

/-- The collaborators of `env_ok`, with a ROMFS that lacks the issuer. -/
def env_no_issuer : Env :=
  { env_ok [120] with find_decompress := romfs_key_only }

/-- A handle of the largest `uint32_t` length, with that many bytes of data. -/
def huge_file : FileData :=
  { length := 4294967295, data := some (List.replicate 4294967295 0) }

/-- The collaborators of `env_ok`, with a filesystem that loads `huge_file`. -/
def env_huge : Env :=
  { env_ok [] with load_file := fun _ => some huge_file }

end AP_TrustedFlight

namespace AP_Jwt

/-- The result enumeration `AP_Jwt::TokenValidationResult` of `AP_Jwt.h`. -/
inductive TokenValidationResult
  | INVALID_FORMAT
  | INVALID_SIGNATURE
  | INVALID_TYP_CLAIM
  | INVALID_ALG_CLAIM
  | INVALID_ISS_CLAIM
  | INVALID_IAT_CLAIM
  | INVALID_NBF_CLAIM
  | INVALID_EXP_CLAIM
  | RTC_NOT_AVAILABLE
  | TOKEN_VALID
deriving DecidableEq

/-- Modelled from the spec: the typed values of a parsed document (section 6,
"key lookup returning typed values (string/number/boolean)").  `AP_JSON::value`
is not among the sources.  A string value is kept as its bytes. -/
inductive Value
  | str (bytes : List Nat)
  | num (n : Int)
  | bool (b : Bool)
deriving DecidableEq

/-- Modelled from the spec: a structured document, an object of key to value
pairs (section 4.2 step 3). -/
abbrev Document := List (String × Value)

/-- Modelled from the spec: what the validator consumes from outside and what
the deployment pins (sections 4.1, 4.3 and 6).  The bodies of
`base64url_decode`, of the JSON parser and of the signature check are not among
the sources, and the spec leaves the expected type literal, the pinned algorithm
and the issued-at tolerance to the deployment.
* `base64url_decode` is the URL-safe codec: the decoded bytes, or `none` on a
  decode failure;
* `parse_json` is the document parser: `none` on a parse error or when the
  result is not an object;
* `verify header public_key message signature` is the signature check with the
  algorithm implied by the header;
* `get_utc_usec` is the clock service, `none` when unavailable. -/
structure Collaborators where
  base64url_decode : List Nat → Option (List Nat)
  parse_json : List Nat → Option Document
  verify : Document → List Nat → List Nat → List Nat → Bool
  expected_typ : List Nat
  expected_alg : List Nat
  iat_tolerance : Nat
  get_utc_usec : Option Nat

/-- The delimiter byte, the ASCII full stop. -/
def DELIMITER : Nat := 46

/-- Modelled from the spec: the scan for the next delimiter byte (section 4.2
step 1, "Scan the token buffer for ... delimiter bytes").  The result is the
segment before the first delimiter and the bytes after it, or `none` when the
bytes hold no delimiter. -/
def find_delimiter : List Nat → Option (List Nat × List Nat)
  | [] => none
  | b :: rest =>
    if b = DELIMITER then some ([], rest)
    else
      match find_delimiter rest with
      | none => none
      | some (segment, after) => some (b :: segment, after)

/-- Modelled from the spec: section 4.2 step 1, "exactly two delimiter bytes
partitioning it into three non-empty segments in order: header, payload,
signature.  Zero, one, or more than two delimiters, or any empty segment, is
INVALID_FORMAT" (`none` here). -/
def split_segments (token : List Nat) : Option (List Nat × List Nat × List Nat) :=
  match find_delimiter token with
  | none => none
  | some (header, rest) =>
    match find_delimiter rest with
    | none => none
    | some (payload, signature) =>
      match find_delimiter signature with
      | some _ => none
      | none =>
        if header = [] ∨ payload = [] ∨ signature = [] then none
        else some (header, payload, signature)

/-- Modelled from the spec: what the structural decoder recovers (section 4.2):
the two parsed documents, the decoded signature, and the signed message, the
encoded header and payload text with the delimiter between them. -/
structure Parsed where
  header_json : Document
  payload_json : Document
  decoded_signature : List Nat
  signed_message : List Nat

/-- Modelled from the spec: the structural decoder of section 4.2 (`AP_Jwt::parse`
is declared in `AP_Jwt.h`, its body is not among the sources).  Steps 1 to 4 in
order; `none` stands for the `INVALID_FORMAT` outcome. -/
def parse (c : Collaborators) (token : List Nat) : Option Parsed :=
  match split_segments token with
  | none => none
  | some (header, payload, signature) =>
    match c.base64url_decode header, c.base64url_decode payload with
    | some header_bytes, some payload_bytes =>
      match c.parse_json header_bytes, c.parse_json payload_bytes with
      | some header_json, some payload_json =>
        match c.base64url_decode signature with
        | some sig =>
          some { header_json := header_json, payload_json := payload_json,
                 decoded_signature := sig,
                 signed_message := header ++ [DELIMITER] ++ payload }
        | none => none
      | _, _ => none
    | _, _ => none

/-- Modelled from the spec: section 4.3 stage 3, the header holds a type field
equal to the expected literal. -/
def validate_type (c : Collaborators) (t : Parsed) : Bool :=
  match t.header_json.lookup "typ" with
  | some (Value.str v) => decide (v = c.expected_typ)
  | _ => false

/-- Modelled from the spec: section 4.3 stage 4, the header's algorithm field
equals the pinned one. -/
def validate_algorithm (c : Collaborators) (t : Parsed) : Bool :=
  match t.header_json.lookup "alg" with
  | some (Value.str v) => decide (v = c.expected_alg)
  | _ => false

/-- Modelled from the spec: section 4.3 stage 5, the payload's issuer field
equals the trusted issuer string byte for byte. -/
def validate_issuer (t : Parsed) (issuer : List Nat) (issuer_length : Nat) : Bool :=
  match t.payload_json.lookup "iss" with
  | some (Value.str v) => decide (v = issuer.take issuer_length)
  | _ => false

/-- Modelled from the spec: section 4.3 stage 7, the issued-at field is present
and not in the future beyond the tolerance. -/
def validate_issued_at (c : Collaborators) (t : Parsed) (now_seconds : Nat) : Bool :=
  match t.payload_json.lookup "iat" with
  | some (Value.num iat) => decide (iat ≤ (now_seconds : Int) + (c.iat_tolerance : Int))
  | _ => false

/-- Modelled from the spec: section 4.3 stage 8, the current time is at least
the not-before field when that field is present. -/
def validate_not_before (t : Parsed) (now_seconds : Nat) : Bool :=
  match t.payload_json.lookup "nbf" with
  | none => true
  | some (Value.num nbf) => decide (nbf ≤ (now_seconds : Int))
  | some _ => false

/-- Modelled from the spec: section 4.3 stage 9, the current time is before the
expiration field, which must be present. -/
def validate_expiration (t : Parsed) (now_seconds : Nat) : Bool :=
  match t.payload_json.lookup "exp" with
  | some (Value.num exp) => decide ((now_seconds : Int) < exp)
  | _ => false

/-- Modelled from the spec: `AP_Jwt(token, token_length).validate(public_key,
issuer, issuer_length)`, the fail-fast pipeline of section 4.3 (declared in
`AP_Jwt.h`, its body is not among the sources).  The token is the first
`token_length` bytes of the buffer; the time claims are in seconds. -/
def validate (c : Collaborators) (token : List Nat) (token_length : Nat)
    (public_key issuer : List Nat) (issuer_length : Nat) : TokenValidationResult :=
  match parse c (token.take token_length) with
  | none => TokenValidationResult.INVALID_FORMAT
  | some t =>
    if c.verify t.header_json public_key t.signed_message t.decoded_signature = false then
      TokenValidationResult.INVALID_SIGNATURE
    else if validate_type c t = false then TokenValidationResult.INVALID_TYP_CLAIM
    else if validate_algorithm c t = false then TokenValidationResult.INVALID_ALG_CLAIM
    else if validate_issuer t issuer issuer_length = false then
      TokenValidationResult.INVALID_ISS_CLAIM
    else
      match c.get_utc_usec with
      | none => TokenValidationResult.RTC_NOT_AVAILABLE
      | some usec =>
        let now_seconds := usec / 1000000
        if validate_issued_at c t now_seconds = false then
          TokenValidationResult.INVALID_IAT_CLAIM
        else if validate_not_before t now_seconds = false then
          TokenValidationResult.INVALID_NBF_CLAIM
        else if validate_expiration t now_seconds = false then
          TokenValidationResult.INVALID_EXP_CLAIM
        else TokenValidationResult.TOKEN_VALID

/-- Collaborators that accept every segment: the codec is the identity, every
document parses to one fixed header-and-payload object, every signature
verifies, and the clock is available. -/
def accept_all : Collaborators :=
  { base64url_decode := fun bytes => some bytes,
    parse_json := fun _ =>
      some [("typ", Value.str [74, 87, 84]), ("alg", Value.str [69, 83, 50, 53, 54]),
            ("iss", Value.str [97, 98]), ("iat", Value.num 1699999940),
            ("nbf", Value.num 1699999940), ("exp", Value.num 1700003600)],
    verify := fun _ _ _ _ => true,
    expected_typ := [74, 87, 84],
    expected_alg := [69, 83, 50, 53, 54],
    iat_tolerance := 0,
    get_utc_usec := some 1700000000000000 }

/-! ### Delimiter counting -/

/-- The scan finds no delimiter exactly when the bytes hold none. -/
theorem find_delimiter_none_iff (token : List Nat) :
    find_delimiter token = none ↔ token.count DELIMITER = 0 := by
  induction token with
  | nil => simp [find_delimiter]
  | cons b rest ih =>
    by_cases hb : b = DELIMITER
    · simp [find_delimiter, hb]
    · have hne : ¬ (DELIMITER = b) := fun h => hb h.symm
      cases hr : find_delimiter rest with
      | none => simp [find_delimiter, hb, hr, List.count_cons, ih.mp hr]
      | some pr =>
        have : ¬ rest.count DELIMITER = 0 := fun h => by
          rw [ih.mpr h] at hr; exact Option.noConfusion hr
        simp [find_delimiter, hb, hr, List.count_cons, this]

/-- When the scan finds a delimiter it splits the bytes at the first one. -/
theorem find_delimiter_some_count (token segment after : List Nat)
    (h : find_delimiter token = some (segment, after)) :
    token.count DELIMITER = after.count DELIMITER + 1 ∧
      token = segment ++ DELIMITER :: after ∧ segment.count DELIMITER = 0 := by
  induction token generalizing segment with
  | nil => simp [find_delimiter] at h
  | cons b rest ih =>
    by_cases hb : b = DELIMITER
    · simp [find_delimiter, hb] at h
      obtain ⟨h1, h2⟩ := h
      subst h1 h2 hb
      simp
    · cases hr : find_delimiter rest with
      | none => simp [find_delimiter, hb, hr] at h
      | some pr =>
        obtain ⟨seg, aft⟩ := pr
        simp [find_delimiter, hb, hr] at h
        obtain ⟨h1, h2⟩ := h
        subst h1 h2
        obtain ⟨i1, i2, i3⟩ := ih seg hr
        have hne : ¬ (b == DELIMITER) = true := by simpa using hb
        refine ⟨?_, ?_, ?_⟩
        · rw [List.count_cons, i1]; simp [hne]
        · rw [i2]; simp
        · rw [List.count_cons, i3]; simp [hne]

/-- Whenever the scan accepts a token, the token holds exactly two delimiters
and is the three segments joined by them, none of them empty. -/
theorem split_segments_some (token header payload signature : List Nat)
    (h : split_segments token = some (header, payload, signature)) :
    token.count DELIMITER = 2 ∧
      token = header ++ DELIMITER :: (payload ++ DELIMITER :: signature) ∧
      header ≠ [] ∧ payload ≠ [] ∧ signature ≠ [] := by
  unfold split_segments at h
  cases h1 : find_delimiter token with
  | none => simp [h1] at h
  | some p1 =>
    obtain ⟨hd, rest⟩ := p1
    cases h2 : find_delimiter rest with
    | none => simp [h1, h2] at h
    | some p2 =>
      obtain ⟨pl, sg⟩ := p2
      cases h3 : find_delimiter sg with
      | some p3 => simp [h1, h2, h3] at h
      | none =>
        simp only [h1, h2, h3] at h
        split at h
        · exact Option.noConfusion h
        · rename_i hne
          simp only [Option.some.injEq, Prod.mk.injEq] at h
          obtain ⟨e1, e2, e3⟩ := h
          subst e1 e2 e3
          obtain ⟨a1, a2, _⟩ := find_delimiter_some_count token hd rest h1
          obtain ⟨b1, b2, _⟩ := find_delimiter_some_count rest pl sg h2
          have c1 := (find_delimiter_none_iff sg).mp h3
          push_neg at hne
          refine ⟨by omega, by rw [a2, b2], hne.1, hne.2.1, hne.2.2⟩

/-- A token whose delimiter count is not two is rejected by the scan. -/
theorem split_segments_count_ne_two (token : List Nat) (h : token.count DELIMITER ≠ 2) :
    split_segments token = none := by
  cases hs : split_segments token with
  | none => rfl
  | some r =>
    obtain ⟨a, b, c⟩ := r
    exact absurd (split_segments_some token a b c hs).1 h

/-- A token whose delimiter count is not two is `INVALID_FORMAT`. -/
theorem validate_count_ne_two (c : Collaborators) (token : List Nat) (token_length : Nat)
    (public_key issuer : List Nat) (issuer_length : Nat)
    (h : (token.take token_length).count DELIMITER ≠ 2) :
    validate c token token_length public_key issuer issuer_length
      = TokenValidationResult.INVALID_FORMAT := by
  simp [validate, parse, split_segments_count_ne_two _ h]

/-- With accepting collaborators a token of three non-empty segments is
`TOKEN_VALID`: the pipeline does reach its last stage. -/
theorem validate_accepts_example :
    validate accept_all [97, 46, 98, 46, 99] 5 [48, 89, 48] [97, 98] 2
      = TokenValidationResult.TOKEN_VALID := by
  decide

/-- Claim C10. For every token whose bytes contain zero, one, or three or more
delimiter bytes, and for every public key and issuer (and all collaborators),
`validate` returns `INVALID_FORMAT`. -/
theorem validate_bad_delimiter_count (c : Collaborators) (token : List Nat)
    (token_length : Nat) (public_key issuer : List Nat) (issuer_length : Nat)
    (h : (token.take token_length).count DELIMITER = 0 ∨
      (token.take token_length).count DELIMITER = 1 ∨
      3 ≤ (token.take token_length).count DELIMITER) :
    validate c token token_length public_key issuer issuer_length
      = TokenValidationResult.INVALID_FORMAT :=
  validate_count_ne_two c token token_length public_key issuer issuer_length (by omega)

/-- Witness for C10: the one-delimiter token `a.b`, with collaborators that
accept every segment. -/
theorem validate_bad_delimiter_count_witness :
    (List.take 3 [97, 46, 98]).count DELIMITER = 1 ∧
    validate accept_all [97, 46, 98] 3 [48, 89, 48] [97, 98] 2
      = TokenValidationResult.INVALID_FORMAT :=
  ⟨by decide,
    validate_bad_delimiter_count accept_all [97, 46, 98] 3 [48, 89, 48] [97, 98] 2
      (Or.inr (Or.inl (by decide)))⟩

end AP_Jwt

namespace AP_TrustedFlight

/-! ### Basic facts about the helpers -/

/-- A text shorter than the buffer is stored whole. -/
theorem snprintf_fits (size : Nat) (text : String) (h : text.length < size) :
    snprintf size text = some text := by
  have h0 : size ≠ 0 := by omega
  have hlen : text.data.length ≤ size - 1 := by
    have : text.data.length = text.length := rfl
    omega
  simp [snprintf, h0, List.take_of_length_le hlen]

/-- In a buffer of at least two bytes, two texts with different first
characters leave different strings. -/
theorem snprintf_head_ne (size : Nat) (a b : String) (c d : Char) (ra rb : List Char)
    (ha : a.data = c :: ra) (hb : b.data = d :: rb) (hcd : c ≠ d) (h : 1 < size) :
    snprintf size a ≠ snprintf size b := by
  obtain ⟨k, hk⟩ : ∃ k, size - 1 = k + 1 := ⟨size - 2, by omega⟩
  have h0 : size ≠ 0 := by omega
  intro heq
  simp only [snprintf, h0, if_false, hk, ha, hb, List.take_succ_cons, Option.some.injEq] at heq
  have hdata := congrArg String.data heq
  simp only [List.cons.injEq] at hdata
  exact hcd hdata.1

/-- Logging leaves the members of the module as they are. -/
theorem log_message_tf (cfg : Config) (message : String) (s : Sys) :
    (log_message cfg message s).tf = s.tf := rfl

/-- Logging appends the time-stamp query and one log record. -/
theorem log_message_trace (cfg : Config) (message : String) (s : Sys) :
    (log_message cfg message s).trace
      = s.trace ++
        [Event.micros64, Event.log_write (strncpy_noterm message cfg.log_msg_size)] := rfl

/-- When `read_from_file` fails: no handle, null data, zero length, or a failed
allocation of `length + 1` bytes (in `uint32_t` arithmetic). -/
theorem read_from_file_none_iff (cfg : Config) (env : Env) (filepath : String) (s : Sys) :
    (read_from_file cfg env filepath s).1 = none ↔
      (env.load_file filepath = none ∨
        ∃ fd, env.load_file filepath = some fd ∧
          (fd.data = none ∨ fd.length = 0 ∨
            env.malloc ((fd.length + 1) % UINT32_MOD) = false)) := by
  unfold read_from_file
  cases hf : env.load_file filepath with
  | none => simp
  | some fd =>
    cases hd : fd.data with
    | none => simp [hd]
    | some data =>
      by_cases hl : fd.length = 0
      · simp [hd, hl]
      · have hl2 : ¬ fd.length ≤ 0 := by omega
        cases hm : env.malloc ((fd.length + 1) % UINT32_MOD) <;> simp [hd, hl, hm]

/-- The outcome of `read_from_file` does not depend on the state it runs in. -/
theorem read_from_file_result_indep (cfg : Config) (env : Env) (filepath : String)
    (s t : Sys) :
    (read_from_file cfg env filepath s).1 = (read_from_file cfg env filepath t).1 := by
  unfold read_from_file
  cases env.load_file filepath with
  | none => rfl
  | some fd =>
    cases hd : fd.data with
    | none => simp [hd]
    | some data =>
      by_cases hl : fd.length ≤ 0
      · simp [hd, hl]
      · cases hm : env.malloc ((fd.length + 1) % UINT32_MOD) <;> simp [hd, hl, hm]

/-- What `read_from_file` does to the state: it only appends events; a failed
read appends a log record; the handle is deleted exactly when the read
succeeds. -/
theorem read_from_file_events (cfg : Config) (env : Env) (filepath : String) (s : Sys) :
    ∃ new : List Event,
      (read_from_file cfg env filepath s).2
          = { s with trace := s.trace ++ new } ∧
      ((read_from_file cfg env filepath s).1 = none → ∃ msg, Event.log_write msg ∈ new) ∧
      (Event.delete_filedata ∈ new ↔ (read_from_file cfg env filepath s).1.isSome = true) := by
  unfold read_from_file
  cases env.load_file filepath with
  | none =>
    exact ⟨[Event.load_file filepath false, Event.micros64, Event.log_write
      (strncpy_noterm (cannot_read_msg filepath) cfg.log_msg_size)], by simp [log_message]⟩
  | some fd =>
    cases hd : fd.data with
    | none =>
      exact ⟨[Event.load_file filepath true, Event.micros64, Event.log_write
        (strncpy_noterm (cannot_read_msg filepath) cfg.log_msg_size)],
        by simp [hd, log_message]⟩
    | some data =>
      by_cases hl : fd.length ≤ 0
      · exact ⟨[Event.load_file filepath true, Event.micros64, Event.log_write
          (strncpy_noterm (cannot_read_msg filepath) cfg.log_msg_size)],
          by simp [hd, hl, log_message]⟩
      · cases hm : env.malloc ((fd.length + 1) % UINT32_MOD) with
        | false =>
          exact ⟨[Event.load_file filepath true,
            Event.malloc ((fd.length + 1) % UINT32_MOD) false,
            Event.micros64,
            Event.log_write
              (strncpy_noterm "Cannot allocate buffer for token" cfg.log_msg_size)],
            by simp [hd, hl, hm, log_message]⟩
        | true =>
          exact ⟨[Event.load_file filepath true,
            Event.malloc ((fd.length + 1) % UINT32_MOD) true, Event.delete_filedata],
            by simp [hd, hl, hm]⟩

/-- The state in which `is_trusted` reads the token file, once the clock has
answered `time`. -/
theorem is_trusted_clock (cfg : Config) (env : Env) (buflen : Nat) (s : Sys) (time : Nat)
    (hinit : s.tf.init_done = true) (hc : env.get_utc_usec = some time) :
    is_trusted cfg env buflen s =
      match read_from_file cfg env cfg.token_file_path
          (log_message cfg (rtc_available_msg time)
            { s with trace := s.trace ++ [Event.get_utc_usec true] }) with
      | (none, s3) =>
        { ret := false,
          buffer := snprintf buflen "Unable to read token",
          sys := log_message cfg "Failed to read token from file system" s3 }
      | (some _, s3) =>
        { ret := true,
          buffer := none,
          sys := log_message cfg "Token is valid." s3 } := by
  simp [is_trusted, hinit, hc]

/-- For an initialised module the returned flag is decided by the clock and by
the read of the token file alone. -/
theorem is_trusted_ret_iff (cfg : Config) (env : Env) (buflen : Nat) (s : Sys)
    (hinit : s.tf.init_done = true) :
    (is_trusted cfg env buflen s).ret = true ↔
      (env.get_utc_usec.isSome = true ∧
        (read_from_file cfg env cfg.token_file_path s).1.isSome = true) := by
  cases hc : env.get_utc_usec with
  | none => simp [is_trusted, hinit, hc]
  | some time =>
    rw [is_trusted_clock cfg env buflen s time hinit hc,
      read_from_file_result_indep cfg env cfg.token_file_path s
        (log_message cfg (rtc_available_msg time)
          { s with trace := s.trace ++ [Event.get_utc_usec true] })]
    cases read_from_file cfg env cfg.token_file_path
        (log_message cfg (rtc_available_msg time)
          { s with trace := s.trace ++ [Event.get_utc_usec true] }) with
    | mk r1 r2 => cases r1 <;> simp

/-- Claim C3. On a module that is not initialised, `is_trusted` returns false and
formats "Initialization is not done yet" into the caller's buffer (the whole
message whenever the buffer has room for it), a message different from the
clock and token-read diagnostics (also as left in any buffer of two bytes or
more); the only collaborator calls it makes are those
of one log record (its time stamp and its write), so it neither queries the
clock service nor loads the token file, whatever the clock and the filesystem
hold. -/
theorem is_trusted_not_initialised (cfg : Config) (env : Env) (buflen : Nat) (s : Sys)
    (h : s.tf.init_done = false) :
    (is_trusted cfg env buflen s).ret = false ∧
    (is_trusted cfg env buflen s).buffer = snprintf buflen "Initialization is not done yet" ∧
    ("Initialization is not done yet".length < buflen →
      (is_trusted cfg env buflen s).buffer = some "Initialization is not done yet") ∧
    "Initialization is not done yet" ≠ "RTC not available" ∧
    "Initialization is not done yet" ≠ "Unable to read token" ∧
    (1 < buflen →
      (is_trusted cfg env buflen s).buffer ≠ snprintf buflen "RTC not available" ∧
      (is_trusted cfg env buflen s).buffer ≠ snprintf buflen "Unable to read token") ∧
    (∃ new : List Event,
      (is_trusted cfg env buflen s).sys = { s with trace := s.trace ++ new } ∧
      new = [Event.micros64, Event.log_write
        (strncpy_noterm "Initialization is not done yet" cfg.log_msg_size)] ∧
      (∀ available, Event.get_utc_usec available ∉ new) ∧
      (∀ path handle, Event.load_file path handle ∉ new)) := by
  have hv : is_trusted cfg env buflen s =
      { ret := false,
        buffer := snprintf buflen "Initialization is not done yet",
        sys := log_message cfg "Initialization is not done yet" s } := by
    simp [is_trusted, h]
  rw [hv]
  refine ⟨rfl, rfl, fun hlen => snprintf_fits _ _ hlen, by decide, by decide,
    fun hlen => ⟨?_, ?_⟩, ?_⟩
  · exact snprintf_head_ne buflen _ _ 'I' 'R' _ _ rfl rfl (by decide) hlen
  · exact snprintf_head_ne buflen _ _ 'I' 'U' _ _ rfl rfl (by decide) hlen
  · exact ⟨_, rfl, rfl, by simp, by simp⟩

/-- Witness for C3: the freshly constructed module, asked with a 64-byte buffer. -/
theorem is_trusted_not_initialised_witness :
    fresh.tf.init_done = false ∧
    (is_trusted cfg0 (env_ok [120]) 64 fresh).ret = false ∧
    (is_trusted cfg0 (env_ok [120]) 64 fresh).buffer = some "Initialization is not done yet" :=
  ⟨rfl, (is_trusted_not_initialised cfg0 (env_ok [120]) 64 fresh rfl).1,
    (is_trusted_not_initialised cfg0 (env_ok [120]) 64 fresh rfl).2.2.1 (by decide)⟩

/-- Claim C4. On an initialised module, when the clock service reports
unavailable, `is_trusted` returns false and formats "RTC not available" into
the caller's buffer (the whole message whenever the buffer has room for it);
the token file is not loaded, and the outcome is the same for every
filesystem. -/
theorem is_trusted_rtc_unavailable (cfg : Config) (env : Env) (buflen : Nat) (s : Sys)
    (hinit : s.tf.init_done = true) (hrtc : env.get_utc_usec = none) :
    (is_trusted cfg env buflen s).ret = false ∧
    (is_trusted cfg env buflen s).buffer = snprintf buflen "RTC not available" ∧
    ("RTC not available".length < buflen →
      (is_trusted cfg env buflen s).buffer = some "RTC not available") ∧
    (∀ fs : String → Option FileData,
      is_trusted cfg { env with load_file := fs } buflen s = is_trusted cfg env buflen s) ∧
    (∃ new : List Event,
      (is_trusted cfg env buflen s).sys = { s with trace := s.trace ++ new } ∧
      (∀ path handle, Event.load_file path handle ∉ new)) := by
  have hv : ∀ e : Env, e.get_utc_usec = none → is_trusted cfg e buflen s =
      { ret := false,
        buffer := snprintf buflen "RTC not available",
        sys := log_message cfg "RTC not available"
          { s with trace := s.trace ++ [Event.get_utc_usec false] } } := by
    intro e he
    simp [is_trusted, hinit, he]
  refine ⟨?_, ?_, ?_, ?_, ?_⟩
  · rw [hv env hrtc]
  · rw [hv env hrtc]
  · intro hlen
    rw [hv env hrtc]
    exact snprintf_fits _ _ hlen
  · intro fs
    rw [hv env hrtc, hv { env with load_file := fs } hrtc]
  · rw [hv env hrtc]
    exact ⟨[Event.get_utc_usec false,
      Event.micros64, Event.log_write (strncpy_noterm "RTC not available" cfg.log_msg_size)],
      by simp [log_message], by simp⟩

/-- Witness for C4: an initialised module, a clock that is not available and a
token file that holds a token. -/
theorem is_trusted_rtc_unavailable_witness :
    ready.tf.init_done = true ∧
    (is_trusted cfg0 { env_ok [120] with get_utc_usec := none } 64 ready).ret = false ∧
    (is_trusted cfg0 { env_ok [120] with get_utc_usec := none } 64 ready).buffer
      = some "RTC not available" :=
  ⟨by decide,
    (is_trusted_rtc_unavailable cfg0 { env_ok [120] with get_utc_usec := none } 64 ready
      (by decide) rfl).1,
    (is_trusted_rtc_unavailable cfg0 { env_ok [120] with get_utc_usec := none } 64 ready
      (by decide) rfl).2.2.1 (by decide)⟩

/-- Claim C5. `read_from_file` returns false exactly when `load_file` gives no
handle, a handle with null data, a handle of length 0, or the allocation of the
buffer fails; and on an initialised module with the clock available, whenever
the read of the token file returns false, `is_trusted` returns false and
formats "Unable to read token" into the caller's buffer (the whole message
whenever the buffer has room for it). -/
theorem read_failure_reported (cfg : Config) (env : Env) (s : Sys) :
    (∀ filepath : String,
      (read_from_file cfg env filepath s).1 = none ↔
        (env.load_file filepath = none ∨
          ∃ fd, env.load_file filepath = some fd ∧
            (fd.data = none ∨ fd.length = 0 ∨
              env.malloc ((fd.length + 1) % UINT32_MOD) = false))) ∧
    (∀ buflen : Nat,
      s.tf.init_done = true → env.get_utc_usec.isSome = true →
      (read_from_file cfg env cfg.token_file_path s).1 = none →
        (is_trusted cfg env buflen s).ret = false ∧
        (is_trusted cfg env buflen s).buffer = snprintf buflen "Unable to read token" ∧
        ("Unable to read token".length < buflen →
          (is_trusted cfg env buflen s).buffer = some "Unable to read token")) := by
  refine ⟨fun filepath => read_from_file_none_iff cfg env filepath s, ?_⟩
  intro buflen hinit hclock hread
  have hbuf : (is_trusted cfg env buflen s).buffer = snprintf buflen "Unable to read token" := by
    cases hc : env.get_utc_usec with
    | none => simp [hc] at hclock
    | some time =>
      have hr := read_from_file_result_indep cfg env cfg.token_file_path
        (log_message cfg (rtc_available_msg time)
          { s with trace := s.trace ++ [Event.get_utc_usec true] }) s
      rw [hread] at hr
      rw [is_trusted_clock cfg env buflen s time hinit hc]
      revert hr
      cases read_from_file cfg env cfg.token_file_path
          (log_message cfg (rtc_available_msg time)
            { s with trace := s.trace ++ [Event.get_utc_usec true] }) with
      | mk r1 r2 =>
        intro hr
        simp only at hr
        subst hr
        rfl
  refine ⟨?_, hbuf, fun hlen => ?_⟩
  · cases hret : (is_trusted cfg env buflen s).ret with
    | false => rfl
    | true =>
      have := ((is_trusted_ret_iff cfg env buflen s hinit).mp hret).2
      rw [hread] at this
      simp at this
  · rw [hbuf]
    exact snprintf_fits _ _ hlen

/-- Witness for C5: an initialised module, the clock available, and a
filesystem without the token file. -/
theorem read_failure_reported_witness :
    (is_trusted cfg0 { env_ok [120] with load_file := fun _ => none } 64 ready).ret = false ∧
    (is_trusted cfg0 { env_ok [120] with load_file := fun _ => none } 64 ready).buffer
      = some "Unable to read token" :=
  ⟨((read_failure_reported cfg0 { env_ok [120] with load_file := fun _ => none } ready).2 64
      (by decide) rfl (by decide)).1,
    ((read_failure_reported cfg0 { env_ok [120] with load_file := fun _ => none } ready).2 64
      (by decide) rfl (by decide)).2.2 (by decide)⟩

/-! ### Initialisation -/

/-- An `init` call on an initialised module is the identity on the state. -/
theorem init_of_init_done (cfg : Config) (env : Env) (s : Sys) (h : s.tf.init_done = true) :
    init cfg env s = s := by
  simp [init, h]

/-- The `init` call that finds no public key. -/
theorem init_key_missing (cfg : Config) (env : Env) (s : Sys)
    (h0 : s.tf.init_done = false) (hk : env.find_decompress cfg.public_key_path = none) :
    init cfg env s =
      { tf := { s.tf with public_key := none },
        log_disarmed :=
          if s.log_disarmed = LogDisarmed.NONE then LogDisarmed.LOG_WHILE_DISARMED
          else s.log_disarmed,
        trace := s.trace ++ [Event.find_decompress cfg.public_key_path false,
          Event.micros64, Event.log_write
            (strncpy_noterm "Failed to read public key file system" cfg.log_msg_size)] } := by
  unfold init
  by_cases hl : s.log_disarmed = LogDisarmed.NONE <;> simp [h0, hk, hl, log_message]

/-- The `init` call that finds the public key but no issuer. -/
theorem init_issuer_missing (cfg : Config) (env : Env) (s : Sys) (key : List Nat)
    (h0 : s.tf.init_done = false) (hk : env.find_decompress cfg.public_key_path = some key)
    (hi : env.find_decompress cfg.token_issuer_path = none) :
    init cfg env s =
      { tf := { s.tf with public_key := some key, public_key_length := key.length,
                          token_issuer := none },
        log_disarmed :=
          if s.log_disarmed = LogDisarmed.NONE then LogDisarmed.LOG_WHILE_DISARMED
          else s.log_disarmed,
        trace := s.trace ++ [Event.find_decompress cfg.public_key_path true,
          Event.find_decompress cfg.token_issuer_path false,
          Event.micros64, Event.log_write
            (strncpy_noterm "Failed to read token issuer file system" cfg.log_msg_size)] } := by
  unfold init
  by_cases hl : s.log_disarmed = LogDisarmed.NONE <;> simp [h0, hk, hi, hl, log_message]

/-- The `init` call that finds both the public key and the issuer. -/
theorem init_success (cfg : Config) (env : Env) (s : Sys) (key issuer : List Nat)
    (h0 : s.tf.init_done = false) (hk : env.find_decompress cfg.public_key_path = some key)
    (hi : env.find_decompress cfg.token_issuer_path = some issuer) :
    init cfg env s =
      { tf := { init_done := true, public_key := some key, public_key_length := key.length,
                token_issuer := some issuer, token_issuer_length := issuer.length },
        log_disarmed :=
          if s.log_disarmed = LogDisarmed.NONE then LogDisarmed.LOG_WHILE_DISARMED
          else s.log_disarmed,
        trace := s.trace ++ [Event.find_decompress cfg.public_key_path true,
          Event.find_decompress cfg.token_issuer_path true] } := by
  unfold init
  by_cases hl : s.log_disarmed = LogDisarmed.NONE <;> simp [h0, hk, hi, hl]

/-- The flag `init_done` is set by `init` only with both pointers non-null. -/
theorem init_preserves_loaded (cfg : Config) (env : Env) (s : Sys)
    (h : s.tf.init_done = true →
      s.tf.public_key.isSome = true ∧ s.tf.token_issuer.isSome = true) :
    (init cfg env s).tf.init_done = true →
      (init cfg env s).tf.public_key.isSome = true ∧
        (init cfg env s).tf.token_issuer.isSome = true := by
  by_cases hd : s.tf.init_done = true
  · rw [init_of_init_done cfg env s hd]
    exact h
  · have hf : s.tf.init_done = false := by simpa using hd
    cases hk : env.find_decompress cfg.public_key_path with
    | none => simp [init_key_missing cfg env s hf hk, hf]
    | some key =>
      cases hi : env.find_decompress cfg.token_issuer_path with
      | none => simp [init_issuer_missing cfg env s key hf hk hi, hf]
      | some issuer => simp [init_success cfg env s key issuer hf hk hi]

/-- The members of the module are not changed by `is_trusted`. -/
theorem is_trusted_tf (cfg : Config) (env : Env) (buflen : Nat) (s : Sys) :
    (is_trusted cfg env buflen s).sys.tf = s.tf := by
  by_cases hd : s.tf.init_done = true
  · cases hc : env.get_utc_usec with
    | none => simp [is_trusted, hd, hc, log_message]
    | some time =>
      rw [is_trusted_clock cfg env buflen s time hd hc]
      obtain ⟨new, hnew, -, -⟩ := read_from_file_events cfg env cfg.token_file_path
        (log_message cfg (rtc_available_msg time)
          { s with trace := s.trace ++ [Event.get_utc_usec true] })
      revert hnew
      cases read_from_file cfg env cfg.token_file_path
          (log_message cfg (rtc_available_msg time)
            { s with trace := s.trace ++ [Event.get_utc_usec true] }) with
      | mk r1 r2 =>
        intro hnew
        simp only at hnew
        subst hnew
        cases r1 <;> rfl
  · have hf : s.tf.init_done = false := by simpa using hd
    simp [is_trusted, hf, log_message]

/-- The invariant along every sequence of calls. -/
theorem run_preserves_loaded (cfg : Config) (calls : List Call) (s : Sys)
    (h : s.tf.init_done = true →
      s.tf.public_key.isSome = true ∧ s.tf.token_issuer.isSome = true) :
    (run cfg s calls).tf.init_done = true →
      (run cfg s calls).tf.public_key.isSome = true ∧
        (run cfg s calls).tf.token_issuer.isSome = true := by
  induction calls generalizing s with
  | nil => exact h
  | cons c rest ih =>
    have hstep : run cfg s (c :: rest) = run cfg (step cfg s c) rest := rfl
    rw [hstep]
    apply ih
    cases c with
    | init env => exact init_preserves_loaded cfg env s h
    | is_trusted env buflen =>
      show (is_trusted cfg env buflen s).sys.tf.init_done = true →
        (is_trusted cfg env buflen s).sys.tf.public_key.isSome = true ∧
          (is_trusted cfg env buflen s).sys.tf.token_issuer.isSome = true
      rw [is_trusted_tf]
      exact h

/-- Claim C2. In every state reached from a freshly constructed module (whatever
the logger parameter and the earlier events) by a sequence of `init` and
`is_trusted` calls, `init_done` is true only if the public key and the token
issuer are both loaded (both pointers non-null); and `is_trusted` returns true
in such a state only if both are loaded. -/
theorem init_done_implies_loaded (cfg : Config) (s0 : Sys) (h0 : s0.tf = fresh.tf)
    (calls : List Call) :
    ((run cfg s0 calls).tf.init_done = true →
      (run cfg s0 calls).tf.public_key.isSome = true ∧
        (run cfg s0 calls).tf.token_issuer.isSome = true) ∧
    (∀ (env : Env) (buflen : Nat),
      (is_trusted cfg env buflen (run cfg s0 calls)).ret = true →
        (run cfg s0 calls).tf.public_key.isSome = true ∧
          (run cfg s0 calls).tf.token_issuer.isSome = true) := by
  have hinv := run_preserves_loaded cfg calls s0 (fun h => by simp [h0, fresh] at h)
  refine ⟨hinv, fun env buflen hret => ?_⟩
  apply hinv
  cases hd : (run cfg s0 calls).tf.init_done with
  | true => rfl
  | false => simp [is_trusted, hd] at hret

/-- Witness for C2: one `init` with key and issuer in ROMFS, then one
`is_trusted`, which returns true. -/
theorem init_done_implies_loaded_witness :
    (run cfg0 fresh [Call.init (env_ok [120]), Call.is_trusted (env_ok [120]) 64]).tf.init_done
      = true ∧
    (run cfg0 fresh
      [Call.init (env_ok [120]), Call.is_trusted (env_ok [120]) 64]).tf.public_key.isSome
      = true ∧
    (run cfg0 fresh
      [Call.init (env_ok [120]), Call.is_trusted (env_ok [120]) 64]).tf.token_issuer.isSome
      = true :=
  ⟨by decide,
    (init_done_implies_loaded cfg0 fresh rfl
      [Call.init (env_ok [120]), Call.is_trusted (env_ok [120]) 64]).1 (by decide)⟩

/-! ### Failure reporting -/

/-- A failed `init` call appends a log record. -/
theorem init_failure_logged (cfg : Config) (env : Env) (s : Sys)
    (h0 : s.tf.init_done = false) (h1 : (init cfg env s).tf.init_done = false) :
    ∃ (new : List Event) (msg : String),
      (init cfg env s).trace = s.trace ++ new ∧ Event.log_write msg ∈ new := by
  cases hk : env.find_decompress cfg.public_key_path with
  | none =>
    rw [init_key_missing cfg env s h0 hk]
    exact ⟨_, strncpy_noterm "Failed to read public key file system" cfg.log_msg_size, rfl,
      by simp⟩
  | some key =>
    cases hi : env.find_decompress cfg.token_issuer_path with
    | none =>
      rw [init_issuer_missing cfg env s key h0 hk hi]
      exact ⟨_, strncpy_noterm "Failed to read token issuer file system" cfg.log_msg_size, rfl,
        by simp⟩
    | some issuer =>
      rw [init_success cfg env s key issuer h0 hk hi] at h1
      simp at h1

/-- A truncated non-empty text is non-empty when at least one character is kept. -/
theorem take_ne_empty (text : String) (size : Nat) (h1 : 1 < size) (h2 : text ≠ "") :
    String.mk (text.data.take (size - 1)) ≠ "" := by
  intro h
  have hd : text.data.take (size - 1) = [] := congrArg String.data h
  have hs : size - 1 ≠ 0 := by omega
  rcases List.take_eq_nil_iff.mp hd with h0 | h0
  · exact hs h0
  · exact h2 (by cases text; simp_all)

/-- What `snprintf` leaves in a buffer of at least two bytes. -/
theorem snprintf_of_one_lt (size : Nat) (text : String) (h : 1 < size) :
    snprintf size text = some (String.mk (text.data.take (size - 1))) := by
  have h0 : size ≠ 0 := by omega
  simp [snprintf, h0]

/-- Every `is_trusted` call that returns false appends a log record. -/
theorem is_trusted_failure_logged (cfg : Config) (env : Env) (buflen : Nat) (s : Sys)
    (hret : (is_trusted cfg env buflen s).ret = false) :
    ∃ (new : List Event) (msg : String),
      (is_trusted cfg env buflen s).sys = { s with trace := s.trace ++ new } ∧
        Event.log_write msg ∈ new := by
  by_cases hd : s.tf.init_done = true
  · cases hc : env.get_utc_usec with
    | none =>
      exact ⟨[Event.get_utc_usec false,
          Event.micros64, Event.log_write (strncpy_noterm "RTC not available" cfg.log_msg_size)],
        strncpy_noterm "RTC not available" cfg.log_msg_size,
        by simp [is_trusted, hd, hc, log_message], by simp⟩
    | some time =>
      rw [is_trusted_clock cfg env buflen s time hd hc] at hret ⊢
      obtain ⟨new, hnew, -, -⟩ := read_from_file_events cfg env cfg.token_file_path
        (log_message cfg (rtc_available_msg time)
          { s with trace := s.trace ++ [Event.get_utc_usec true] })
      revert hnew hret
      cases read_from_file cfg env cfg.token_file_path
          (log_message cfg (rtc_available_msg time)
            { s with trace := s.trace ++ [Event.get_utc_usec true] }) with
      | mk r1 r2 =>
        intro hret hnew
        simp only at hnew
        subst hnew
        cases r1 with
        | some b => simp at hret
        | none =>
          exact ⟨[Event.get_utc_usec true,
              Event.micros64,
              Event.log_write (strncpy_noterm (rtc_available_msg time) cfg.log_msg_size)]
              ++ new ++ [Event.micros64, Event.log_write
                (strncpy_noterm "Failed to read token from file system" cfg.log_msg_size)],
            strncpy_noterm "Failed to read token from file system" cfg.log_msg_size,
            by simp [log_message], by simp⟩
  · have hf : s.tf.init_done = false := by simpa using hd
    exact ⟨[Event.micros64,
        Event.log_write (strncpy_noterm "Initialization is not done yet" cfg.log_msg_size)],
      strncpy_noterm "Initialization is not done yet" cfg.log_msg_size,
      by simp [is_trusted, hf, log_message], by simp⟩

/-- The text `is_trusted` formats into the caller's buffer when it returns
false is one of three diagnostics. -/
theorem is_trusted_failure_buffer (cfg : Config) (env : Env) (buflen : Nat) (s : Sys)
    (hret : (is_trusted cfg env buflen s).ret = false) :
    ∃ text : String,
      text ∈ ["Initialization is not done yet", "RTC not available", "Unable to read token"] ∧
        (is_trusted cfg env buflen s).buffer = snprintf buflen text := by
  by_cases hd : s.tf.init_done = true
  · cases hc : env.get_utc_usec with
    | none => exact ⟨"RTC not available", by simp, by simp [is_trusted, hd, hc]⟩
    | some time =>
      rw [is_trusted_clock cfg env buflen s time hd hc] at hret ⊢
      revert hret
      cases read_from_file cfg env cfg.token_file_path
          (log_message cfg (rtc_available_msg time)
            { s with trace := s.trace ++ [Event.get_utc_usec true] }) with
      | mk r1 r2 =>
        intro hret
        cases r1 with
        | some b => simp at hret
        | none => exact ⟨"Unable to read token", by simp, rfl⟩
  · have hf : s.tf.init_done = false := by simpa using hd
    exact ⟨"Initialization is not done yet", by simp, by simp [is_trusted, hf]⟩

/-- Claim C6, as amended. Every `is_trusted` call that returns false has emitted
at least one log record through `log_message` and, when `buflen > 1`, has
written a non-empty diagnostic into the caller's buffer: the first `buflen - 1`
characters of one of the three diagnostic texts.  Every `init` call that starts
and ends with `init_done` false has emitted at least one log record. -/
theorem failure_is_reported (cfg : Config) (env : Env) (buflen : Nat) (s : Sys) :
    ((is_trusted cfg env buflen s).ret = false →
      (∃ (new : List Event) (msg : String),
        (is_trusted cfg env buflen s).sys = { s with trace := s.trace ++ new } ∧
          Event.log_write msg ∈ new) ∧
      (1 < buflen →
        ∃ text : String,
          text ∈ ["Initialization is not done yet", "RTC not available",
            "Unable to read token"] ∧
          (is_trusted cfg env buflen s).buffer
            = some (String.mk (text.data.take (buflen - 1))) ∧
          String.mk (text.data.take (buflen - 1)) ≠ "")) ∧
    (s.tf.init_done = false → (init cfg env s).tf.init_done = false →
      ∃ (new : List Event) (msg : String),
        (init cfg env s).trace = s.trace ++ new ∧ Event.log_write msg ∈ new) := by
  refine ⟨fun hret => ⟨is_trusted_failure_logged cfg env buflen s hret, fun hlen => ?_⟩,
    init_failure_logged cfg env s⟩
  obtain ⟨text, hmem, hbuf⟩ := is_trusted_failure_buffer cfg env buflen s hret
  refine ⟨text, hmem, ?_, ?_⟩
  · rw [hbuf, snprintf_of_one_lt buflen text hlen]
  · apply take_ne_empty text buflen hlen
    simp only [List.mem_cons, List.mem_singleton, List.not_mem_nil, or_false] at hmem
    rcases hmem with h | h | h <;> subst h <;> decide

/-- Witness for C6 as amended: the fresh module asked with a two-byte buffer,
and an `init` call against a ROMFS without the issuer. -/
theorem failure_is_reported_witness :
    (is_trusted cfg0 (env_ok [120]) 2 fresh).ret = false ∧
    (∃ text : String,
      text ∈ ["Initialization is not done yet", "RTC not available",
        "Unable to read token"] ∧
      (is_trusted cfg0 (env_ok [120]) 2 fresh).buffer
        = some (String.mk (text.data.take (2 - 1))) ∧
      String.mk (text.data.take (2 - 1)) ≠ "") ∧
    (init cfg0 env_no_issuer fresh).tf.init_done = false ∧
    (∃ (new : List Event) (msg : String),
      (init cfg0 env_no_issuer fresh).trace = fresh.trace ++ new ∧
        Event.log_write msg ∈ new) :=
  ⟨by decide,
    ((failure_is_reported cfg0 (env_ok [120]) 2 fresh).1 (by decide)).2 (by decide),
    by decide,
    (failure_is_reported cfg0 env_no_issuer 2 fresh).2 (by decide) (by decide)⟩

/-- Counterexample to C6 as stated: with `buflen = 1 > 0` the freshly
constructed module returns false and leaves the empty string in the caller's
buffer. -/
theorem diagnostic_empty_at_buflen_one :
    0 < 1 ∧
    (is_trusted cfg0 (env_ok [120]) 1 fresh).ret = false ∧
    (is_trusted cfg0 (env_ok [120]) 1 fresh).buffer = some "" := by
  decide

/-! ### Reading the token file -/

/-- For a well-formed handle of length `n > 0` with `n + 1` inside the
`uint32_t` range, and a successful allocation, `read_from_file` returns true
with `outsize = n` and a block of `n + 1` bytes: the file's bytes in order,
then the terminator 0 at index `n`. -/
theorem read_from_file_copies (cfg : Config) (env : Env) (filepath : String) (s : Sys)
    (fd : FileData) (bytes : List Nat)
    (hf : env.load_file filepath = some fd) (hd : fd.data = some bytes)
    (hlen : bytes.length = fd.length) (hpos : 0 < fd.length)
    (hfit : fd.length + 1 < UINT32_MOD) (hm : env.malloc (fd.length + 1) = true) :
    ∃ outbuf : TokenBuffer,
      (read_from_file cfg env filepath s).1 = some (outbuf, fd.length) ∧
      outbuf.capacity = fd.length + 1 ∧
      outbuf.bytes.length = fd.length + 1 ∧
      outbuf.bytes.take fd.length = bytes ∧
      outbuf.bytes[fd.length]? = some 0 := by
  have hmod : (fd.length + 1) % UINT32_MOD = fd.length + 1 := Nat.mod_eq_of_lt hfit
  have hmod2 : fd.length % UINT32_MOD = fd.length := Nat.mod_eq_of_lt (by omega)
  have hl : ¬ fd.length ≤ 0 := by omega
  have htake : List.take fd.length bytes = bytes := List.take_of_length_le (by omega)
  refine ⟨{ capacity := fd.length + 1, bytes := bytes ++ [0] }, ?_, rfl, ?_, ?_, ?_⟩
  · unfold read_from_file
    simp [hf, hd, hl, hmod, hmod2, hm, htake]
  · simp [hlen]
  · simp [← hlen]
  · simp [← hlen]

/-- At the largest `uint32_t` length the size `length + 1` wraps to 0: the read
succeeds with a block of capacity 0 into which `length + 1` bytes are stored. -/
theorem read_from_file_at_max_length (cfg : Config) (env : Env) (filepath : String) (s : Sys)
    (fd : FileData) (bytes : List Nat)
    (hf : env.load_file filepath = some fd) (hd : fd.data = some bytes)
    (hlen : bytes.length = fd.length) (hmax : fd.length = 4294967295)
    (hm : env.malloc 0 = true) :
    (read_from_file cfg env filepath s).1
      = some ({ capacity := 0, bytes := bytes ++ [0] }, 4294967295) := by
  have hmod : (fd.length + 1) % UINT32_MOD = 0 := by rw [hmax]; rfl
  have hmod2 : fd.length % UINT32_MOD = 4294967295 := by rw [hmax]; rfl
  have hl : ¬ fd.length ≤ 0 := by omega
  have htake : List.take fd.length bytes = bytes := List.take_of_length_le (by omega)
  unfold read_from_file
  simp only [hf, hd, hl, hmod, hmod2, hm, htake, if_false, Bool.true_eq_false]

/-- Evaluation for C7 at the largest `uint32_t` length: `length + 1` wraps to 0,
so `read_from_file` returns true with `outsize = 4294967295` after requesting a
block of 0 bytes, into which it stores 4294967296 bytes. -/
theorem length_plus_one_wraps :
    huge_file.length = 4294967295 ∧
    huge_file.data.map List.length = some 4294967295 ∧
    (read_from_file cfg0 env_huge cfg0.token_file_path fresh).1.map
        (fun r => (r.1.capacity, r.2, r.1.bytes.length)) = some (0, 4294967295, 4294967296) := by
  have hres := read_from_file_at_max_length cfg0 env_huge cfg0.token_file_path fresh huge_file
    (List.replicate 4294967295 0) rfl rfl (List.length_replicate _ _) rfl rfl
  refine ⟨rfl, ?_, ?_⟩
  · show Option.map List.length (some (List.replicate 4294967295 0)) = some 4294967295
    rw [Option.map_some', List.length_replicate]
  · have hlen : (List.replicate 4294967295 0 ++ [0]).length = 4294967296 := by
      rw [List.length_append, List.length_replicate, List.length_singleton]
    rw [hres, Option.map_some']
    show some (0, 4294967295, (List.replicate 4294967295 0 ++ [0]).length)
      = some (0, 4294967295, 4294967296)
    rw [hlen]

/-- Evaluation for C8: for an empty token file, and for a token file whose
buffer cannot be allocated, `load_file` returns a handle, `read_from_file`
returns false, and no `delete` of the handle is among its events; for a
readable token file the handle is deleted. -/
theorem read_from_file_leaks_handle :
    ((env_ok []).load_file cfg0.token_file_path).isSome = true ∧
    (read_from_file cfg0 (env_ok []) cfg0.token_file_path fresh).1 = none ∧
    Event.delete_filedata ∉
      (read_from_file cfg0 (env_ok []) cfg0.token_file_path fresh).2.trace ∧
    (read_from_file cfg0 { env_ok [120] with malloc := fun _ => false }
      cfg0.token_file_path fresh).1 = none ∧
    Event.delete_filedata ∉
      (read_from_file cfg0 { env_ok [120] with malloc := fun _ => false }
        cfg0.token_file_path fresh).2.trace ∧
    Event.delete_filedata ∈
      (read_from_file cfg0 (env_ok [120]) cfg0.token_file_path fresh).2.trace := by
  decide

/-- Evaluation for C1: on an initialised module, with the clock available and
the token file holding the single byte `x`, the read yields the token, the
validator returns `INVALID_FORMAT` for it with the loaded key and issuer
(whatever the collaborators), and `is_trusted` returns true. -/
theorem is_trusted_skips_validation :
    ready.tf.init_done = true ∧
    (env_ok [120]).get_utc_usec.isSome = true ∧
    (read_from_file cfg0 (env_ok [120]) cfg0.token_file_path ready).1
      = some ({ capacity := 2, bytes := [120, 0] }, 1) ∧
    (∀ c : AP_Jwt.Collaborators,
      AP_Jwt.validate c [120, 0] 1 (ready.tf.public_key.getD [])
        (ready.tf.token_issuer.getD []) ready.tf.token_issuer_length
        = AP_Jwt.TokenValidationResult.INVALID_FORMAT) ∧
    (is_trusted cfg0 (env_ok [120]) 64 ready).ret = true :=
  ⟨by decide, by decide, by decide,
    fun c => AP_Jwt.validate_count_ne_two c _ _ _ _ _ (by decide), by decide⟩

/-! ### Loading the key and the issuer -/

/-- Once `init_done` is true, further `init` calls leave the state as it is. -/
theorem run_init_of_init_done (cfg : Config) (envs : List Env) (s : Sys)
    (h : s.tf.init_done = true) :
    run cfg s (envs.map Call.init) = s := by
  induction envs with
  | nil => rfl
  | cons e rest ih =>
    have hstep : run cfg s ((e :: rest).map Call.init)
        = run cfg (init cfg e s) (rest.map Call.init) := rfl
    rw [hstep, init_of_init_done cfg e s h, ih]

/-- The ROMFS reads of a sequence of `init` calls, when the two paths differ:
the issuer is found at most once, and each path is read at most once per call. -/
theorem init_sequence_counts (cfg : Config)
    (hne : cfg.public_key_path ≠ cfg.token_issuer_path) (envs : List Env) (s : Sys) :
    ∃ new : List Event,
      (run cfg s (envs.map Call.init)).trace = s.trace ++ new ∧
      new.count (Event.find_decompress cfg.token_issuer_path true) ≤ 1 ∧
      new.count (Event.find_decompress cfg.public_key_path true)
        + new.count (Event.find_decompress cfg.public_key_path false) ≤ envs.length ∧
      new.count (Event.find_decompress cfg.token_issuer_path true)
        + new.count (Event.find_decompress cfg.token_issuer_path false) ≤ envs.length := by
  have hne2 : ¬ cfg.token_issuer_path = cfg.public_key_path := fun h => hne h.symm
  induction envs generalizing s with
  | nil => exact ⟨[], by simp [run], by simp, by simp, by simp⟩
  | cons e rest ih =>
    have hstep : run cfg s ((e :: rest).map Call.init)
        = run cfg (init cfg e s) (rest.map Call.init) := rfl
    rw [hstep]
    by_cases hd : s.tf.init_done = true
    · rw [init_of_init_done cfg e s hd, run_init_of_init_done cfg rest s hd]
      exact ⟨[], by simp, by simp, by simp, by simp⟩
    · have hf : s.tf.init_done = false := by simpa using hd
      cases hk : e.find_decompress cfg.public_key_path with
      | none =>
        obtain ⟨new, h1, h2, h3, h4⟩ := ih (init cfg e s)
        have ht : (init cfg e s).trace = s.trace ++
            [Event.find_decompress cfg.public_key_path false,
              Event.micros64, Event.log_write
                (strncpy_noterm "Failed to read public key file system" cfg.log_msg_size)] := by
          rw [init_key_missing cfg e s hf hk]
        rw [ht] at h1
        refine ⟨[Event.find_decompress cfg.public_key_path false,
            Event.micros64, Event.log_write
              (strncpy_noterm "Failed to read public key file system" cfg.log_msg_size)]
            ++ new, by rw [h1]; simp, ?_, ?_, ?_⟩
        · simp [List.count_cons, hne]
          exact h2
        · simp [List.count_cons]
          omega
        · simp [List.count_cons, hne]
          omega
      | some key =>
        cases hi : e.find_decompress cfg.token_issuer_path with
        | none =>
          obtain ⟨new, h1, h2, h3, h4⟩ := ih (init cfg e s)
          have ht : (init cfg e s).trace = s.trace ++
              [Event.find_decompress cfg.public_key_path true,
                Event.find_decompress cfg.token_issuer_path false,
                Event.micros64, Event.log_write
                  (strncpy_noterm "Failed to read token issuer file system"
                    cfg.log_msg_size)] := by
            rw [init_issuer_missing cfg e s key hf hk hi]
          rw [ht] at h1
          refine ⟨[Event.find_decompress cfg.public_key_path true,
              Event.find_decompress cfg.token_issuer_path false,
              Event.micros64, Event.log_write
                (strncpy_noterm "Failed to read token issuer file system" cfg.log_msg_size)]
              ++ new, by rw [h1]; simp, ?_, ?_, ?_⟩
          · simp [List.count_cons, hne]
            exact h2
          · simp [List.count_cons, hne2]
            omega
          · simp [List.count_cons, hne]
            omega
        | some issuer =>
          have hdone : (init cfg e s).tf.init_done = true := by
            rw [init_success cfg e s key issuer hf hk hi]
          have ht : (init cfg e s).trace = s.trace ++
              [Event.find_decompress cfg.public_key_path true,
                Event.find_decompress cfg.token_issuer_path true] := by
            rw [init_success cfg e s key issuer hf hk hi]
          rw [run_init_of_init_done cfg rest (init cfg e s) hdone, ht]
          refine ⟨_, rfl, ?_, ?_, ?_⟩
          · simp [List.count_cons, hne]
          · simp [List.count_cons, hne2]
          · simp [List.count_cons, hne]

/-- Claim C9, as amended. An `init` call on a module with `init_done` true
changes no state and reads nothing, so no firmware read happens after the call
that sets `init_done`.  Over every sequence of `init` calls on one module, for
every firmware-storage content (key and issuer stored under different paths),
the token issuer is found at most once, and `find_decompress` is called on each
of the two paths at most once per `init` call. -/
theorem init_sequence_reads (cfg : Config) (envs : List Env) (s : Sys) :
    (s.tf.init_done = true → ∀ env : Env, init cfg env s = s) ∧
    (∀ more : List Env, (run cfg s (envs.map Call.init)).tf.init_done = true →
      run cfg s ((envs ++ more).map Call.init) = run cfg s (envs.map Call.init)) ∧
    (cfg.public_key_path ≠ cfg.token_issuer_path →
      ∃ new : List Event,
        (run cfg s (envs.map Call.init)).trace = s.trace ++ new ∧
        new.count (Event.find_decompress cfg.token_issuer_path true) ≤ 1 ∧
        new.count (Event.find_decompress cfg.public_key_path true)
          + new.count (Event.find_decompress cfg.public_key_path false) ≤ envs.length ∧
        new.count (Event.find_decompress cfg.token_issuer_path true)
          + new.count (Event.find_decompress cfg.token_issuer_path false) ≤ envs.length) := by
  refine ⟨fun h env => init_of_init_done cfg env s h, fun more h => ?_,
    fun hne => init_sequence_counts cfg hne envs s⟩
  have hsplit : run cfg s ((envs ++ more).map Call.init)
      = run cfg (run cfg s (envs.map Call.init)) (more.map Call.init) := by
    simp [run, List.foldl_append]
  rw [hsplit, run_init_of_init_done cfg more _ h]

/-- Witness for C9 as amended: an initialised module stays as it is under
`init`, and three `init` calls against a ROMFS with key and issuer read each
path once. -/
theorem init_sequence_reads_witness :
    ready.tf.init_done = true ∧
    init cfg0 env_no_issuer ready = ready ∧
    (∃ new : List Event,
      (run cfg0 fresh ([env_ok [120], env_ok [120], env_ok [120]].map Call.init)).trace
        = fresh.trace ++ new ∧
      new.count (Event.find_decompress cfg0.token_issuer_path true) ≤ 1 ∧
      new.count (Event.find_decompress cfg0.public_key_path true)
        + new.count (Event.find_decompress cfg0.public_key_path false) ≤ 3 ∧
      new.count (Event.find_decompress cfg0.token_issuer_path true)
        + new.count (Event.find_decompress cfg0.token_issuer_path false) ≤ 3) :=
  ⟨by decide,
    (init_sequence_reads cfg0 [] ready).1 (by decide) env_no_issuer,
    (init_sequence_reads cfg0 [env_ok [120], env_ok [120], env_ok [120]] fresh).2.2
      (by decide)⟩

/-- Counterexample to C9 as stated: two `init` calls against a ROMFS that holds
the key but no issuer load the public key twice. -/
theorem public_key_loaded_twice :
    (init cfg0 env_no_issuer fresh).tf.init_done = false ∧
    (init cfg0 env_no_issuer fresh).tf.public_key = some [48, 89, 48] ∧
    (run cfg0 fresh [Call.init env_no_issuer, Call.init env_no_issuer]).trace.count
      (Event.find_decompress cfg0.public_key_path true) = 2 := by
  decide

end AP_TrustedFlight
